import Mathlib

/-!
Verification of the deal-screener / LBO backend (src/backend/server.py).

The Python code is shallowly embedded over ℚ: float arithmetic becomes exact
rational arithmetic, Python round, which is half-to-even, becomes pyRoundInt, dict
fields that may be absent become Option, and fallible endpoints return Except.
The irr output, a fractional real power, is embedded over ℝ.
-/

set_option maxHeartbeats 1000000

namespace DealScreener

/-- Python round to an integer: nearest, ties to even. -/
def pyRoundInt (x : ℚ) : ℤ :=
  if x - ⌊x⌋ < 1/2 then ⌊x⌋
  else if 1/2 < x - ⌊x⌋ then ⌊x⌋ + 1
  else if ⌊x⌋ % 2 = 0 then ⌊x⌋ else ⌊x⌋ + 1

/-- Python round(x, 2). -/
def round2 (x : ℚ) : ℚ := (pyRoundInt (x * 100) : ℚ) / 100

/-- Python round(x, 4). -/
def round4 (x : ℚ) : ℚ := (pyRoundInt (x * 10000) : ℚ) / 10000

/-- compute_ev_ebitda from server.py. -/
def compute_ev_ebitda (ev ebitda : ℚ) : ℚ :=
  if ebitda = 0 then 0 else round2 (ev / ebitda)

/-- The fields of a loosely-typed stored record that compute_score reads;
each may be absent from the dict. -/
structure ScoreInput where
  growth_rate : Option ℚ
  ebitda_margin : Option ℚ
  ev_ebitda : Option ℚ
  ev : Option ℚ
  ebitda : Option ℚ
deriving DecidableEq

/-- compute_score from server.py: an absent ev_ebitda key falls back to
compute_ev_ebitda of the record's ev and ebitda (each defaulted to 0). -/
def compute_score (d : ScoreInput) : ℚ :=
  let growth := d.growth_rate.getD 0
  let margin := d.ebitda_margin.getD 0
  let mult :=
    match d.ev_ebitda with
    | some v => v
    | none => compute_ev_ebitda (d.ev.getD 0) (d.ebitda.getD 0)
  round2 (100 * ((4/10) * margin + (4/10) * growth + (2/10) * (1 / (1 + max (mult - 5) 0))))

/-- The score formula exactly as claim C5 words it: a missing multiple is
treated as 0 rather than recomputed. -/
def scoreClaimC5 (d : ScoreInput) : ℚ :=
  let growth := d.growth_rate.getD 0
  let margin := d.ebitda_margin.getD 0
  let mult := d.ev_ebitda.getD 0
  round2 (100 * ((4/10) * margin + (4/10) * growth + (2/10) * (1 / (1 + max (mult - 5) 0))))

/-- The request body of the /lbo/quick endpoint (LBORequest in server.py);
years is declared a positive integer by the data model. -/
structure LBORequest where
  entry_ebitda : ℚ
  entry_ev_ebitda : ℚ
  revenue_growth : ℚ
  ebitda_margin : ℚ
  capex_pct_of_revenue : ℚ
  nwc_pct_change_of_revenue : ℚ
  interest_rate : ℚ
  leverage_multiple : ℚ
  exit_ev_ebitda : ℚ
  years : ℕ
  tax_rate : ℚ
deriving DecidableEq

/-- One entry of the yearly schedule built by lbo_quick (values as stored,
i.e. rounded to 2 decimals). -/
structure YearRow where
  year : ℕ
  revenue : ℚ
  ebitda : ℚ
  interest : ℚ
  capex : ℚ
  nwc_change : ℚ
  tax : ℚ
  fcf : ℚ
  debt_end : ℚ
deriving DecidableEq

/-- The running mutable variables of the lbo_quick loop. -/
structure LBOState where
  revenue : ℚ
  ebitda : ℚ
  debt : ℚ
deriving DecidableEq

/-- LBOResponse from server.py, without the irr field (irr, a fractional real
power, is embedded separately over ℝ as lbo_irr). -/
structure LBOResponse where
  entry_ev : ℚ
  entry_debt : ℚ
  entry_equity : ℚ
  exit_ev : ℚ
  exit_debt : ℚ
  equity_value_at_exit : ℚ
  moic : ℚ
  yearly : List YearRow
deriving DecidableEq

/-- The HTTP 400 detail raised by lbo_quick. -/
def lboErrMsg : String := "Equity must be positive; adjust leverage or entry multiple"

/-- One iteration of the lbo_quick for-loop, in source order. -/
def lboYear (req : LBORequest) (st : LBOState) (y : ℕ) : LBOState × YearRow :=
  let revenue := st.revenue * (1 + req.revenue_growth)
  let ebitda := revenue * req.ebitda_margin
  let interest := st.debt * req.interest_rate
  let capex := revenue * req.capex_pct_of_revenue
  let nwc_change := revenue * req.nwc_pct_change_of_revenue
  let tax := max (ebitda - interest) 0 * req.tax_rate
  let fcf := ebitda - capex - nwc_change - interest - tax
  let debt := max (st.debt - max fcf 0) 0
  (⟨revenue, ebitda, debt⟩,
   ⟨y, round2 revenue, round2 ebitda, round2 interest, round2 capex, round2 nwc_change,
    round2 tax, round2 fcf, round2 debt⟩)

/-- The lbo_quick loop: n remaining iterations starting at year index y. -/
def lboRun (req : LBORequest) : ℕ → ℕ → LBOState → LBOState × List YearRow
  | _, 0, st => (st, [])
  | y, n+1, st =>
    let p := lboYear req st y
    let rest := lboRun req (y+1) n p.1
    (rest.1, p.2 :: rest.2)

/-- The loop state before year 1: inferred starting revenue, entry EBITDA,
and entry debt. -/
def lboInit (req : LBORequest) : LBOState :=
  ⟨req.entry_ebitda / max req.ebitda_margin (1/1000000), req.entry_ebitda,
   req.leverage_multiple * req.entry_ebitda⟩

/-- The full simulation: final state plus the yearly schedule. -/
def lbo_core (req : LBORequest) : LBOState × List YearRow :=
  lboRun req 1 req.years (lboInit req)

/-- Unrounded entry equity: entry_ev minus entry debt. -/
def entryEquityRaw (req : LBORequest) : ℚ :=
  req.entry_ebitda * req.entry_ev_ebitda - req.leverage_multiple * req.entry_ebitda

/-- lbo_quick from server.py (all fields except irr). -/
def lbo_quick (req : LBORequest) : Except String LBOResponse :=
  let entry_ev := req.entry_ebitda * req.entry_ev_ebitda
  let equity := entry_ev - req.leverage_multiple * req.entry_ebitda
  if equity ≤ 0 then Except.error lboErrMsg
  else
    let r := lbo_core req
    let exit_ev := r.1.ebitda * req.exit_ev_ebitda
    let equity_exit := exit_ev - r.1.debt
    Except.ok
      { entry_ev := round2 entry_ev,
        entry_debt := round2 (req.leverage_multiple * req.entry_ebitda),
        entry_equity := round2 equity,
        exit_ev := round2 exit_ev,
        exit_debt := round2 r.1.debt,
        equity_value_at_exit := round2 equity_exit,
        moic := round2 (equity_exit / equity),
        yearly := r.2 }

/-- The unrounded MOIC the code feeds into the irr formula. -/
def lbo_moic_raw (req : LBORequest) : ℚ :=
  ((lbo_core req).1.ebitda * req.exit_ev_ebitda - (lbo_core req).1.debt) / entryEquityRaw req

/-- Revenue per the spec recurrence: revenue0 = entry_ebitda / max(margin, 1e-6),
revenue_y = revenue_(y-1) * (1 + growth). -/
def revSpec (req : LBORequest) : ℕ → ℚ
  | 0 => req.entry_ebitda / max req.ebitda_margin (1/1000000)
  | n+1 => revSpec req n * (1 + req.revenue_growth)

/-- Year-y tax per the spec, given the beginning-of-year debt d. -/
def taxSpec (req : LBORequest) (y : ℕ) (d : ℚ) : ℚ :=
  max (revSpec req y * req.ebitda_margin - d * req.interest_rate) 0 * req.tax_rate

/-- Year-y free cash flow per the spec, given the beginning-of-year debt d. -/
def fcfSpec (req : LBORequest) (y : ℕ) (d : ℚ) : ℚ :=
  revSpec req y * req.ebitda_margin - revSpec req y * req.capex_pct_of_revenue -
    revSpec req y * req.nwc_pct_change_of_revenue - d * req.interest_rate - taxSpec req y d

/-- End-of-year debt per the spec: 100% cash sweep, floored at 0. -/
def debtSpec (req : LBORequest) : ℕ → ℚ
  | 0 => req.leverage_multiple * req.entry_ebitda
  | n+1 => max (debtSpec req n - max (fcfSpec req (n+1) (debtSpec req n)) 0) 0

/-- The schedule row for year y (y ≥ 1) per the spec recurrence, rounded. -/
def rowSpec (req : LBORequest) (y : ℕ) : YearRow :=
  ⟨y, round2 (revSpec req y), round2 (revSpec req y * req.ebitda_margin),
   round2 (debtSpec req (y-1) * req.interest_rate),
   round2 (revSpec req y * req.capex_pct_of_revenue),
   round2 (revSpec req y * req.nwc_pct_change_of_revenue),
   round2 (taxSpec req y (debtSpec req (y-1))),
   round2 (fcfSpec req y (debtSpec req (y-1))),
   round2 (debtSpec req y)⟩

/-- The loop state after k iterations, expressed through the spec recurrence. -/
def stSpec (req : LBORequest) : ℕ → LBOState
  | 0 => lboInit req
  | n+1 => ⟨revSpec req (n+1), revSpec req (n+1) * req.ebitda_margin, debtSpec req (n+1)⟩

/-- Exit enterprise value per the spec: final-year EBITDA times exit multiple. -/
def exitEvSpec (req : LBORequest) : ℚ :=
  revSpec req req.years * req.ebitda_margin * req.exit_ev_ebitda

/-- Unrounded MOIC per the spec. -/
def moicSpec (req : LBORequest) : ℚ :=
  (exitEvSpec req - debtSpec req req.years) / entryEquityRaw req

/-- Python round to an integer over ℝ (nearest, ties to even). -/
noncomputable def pyRoundIntR (x : ℝ) : ℤ :=
  if x - ⌊x⌋ < 1/2 then ⌊x⌋
  else if 1/2 < x - ⌊x⌋ then ⌊x⌋ + 1
  else if ⌊x⌋ % 2 = 0 then ⌊x⌋ else ⌊x⌋ + 1

/-- Python round(x, 4) over ℝ. -/
noncomputable def round4R (x : ℝ) : ℝ := (pyRoundIntR (x * 10000) : ℝ) / 10000

/-- The irr output of lbo_quick: moic ** (1/years) - 1, rounded to 4 decimals. -/
noncomputable def lbo_irr (req : LBORequest) : ℝ :=
  round4R ((lbo_moic_raw req : ℝ) ^ ((1 : ℝ) / (req.years : ℝ)) - 1)

/-- The irr per the spec formula, from the spec-side MOIC. -/
noncomputable def irrSpec (req : LBORequest) : ℝ :=
  round4R ((moicSpec req : ℝ) ^ ((1 : ℝ) / (req.years : ℝ)) - 1)

/-- The spec.md example request: entry_ebitda 50, entry multiple 10, leverage 4. -/
def c2RequestOk : LBORequest := ⟨50, 10, 0, 1/4, 0, 0, 1/10, 4, 8, 1, 1/4⟩

/-- The spec.md rejection example: leverage 20 makes entry debt exceed entry EV. -/
def c2RequestBad : LBORequest := ⟨50, 10, 0, 1/4, 0, 0, 1/10, 20, 8, 1, 1/4⟩

/-- A two-year request used to instantiate the C1 theorem. -/
def c1Request : LBORequest := ⟨50, 10, 1/10, 1/4, 1/20, 1/50, 1/10, 4, 8, 2, 1/4⟩

/-- A request with negative leverage: entry equity is positive (110) but entry
debt is -10, while every debt_end is clamped at ≥ 0. -/
def c6Request : LBORequest := ⟨10, 10, 0, 1, 0, 0, 0, -1, 1, 1, 1/4⟩

/-- The response lbo_quick produces on c6Request. -/
def c6Response : LBOResponse :=
  ⟨100, -10, 110, 10, 0, 10, 9/100, [⟨1, 10, 10, 0, 0, 0, 5/2, 15/2, 0⟩]⟩

/-- A one-year request with non-negative entry debt, for the C6 witness. -/
def c6WitnessRequest : LBORequest := ⟨50, 10, 0, 1/4, 0, 0, 1/10, 4, 8, 1, 1/4⟩

/-- The response lbo_quick produces on c6WitnessRequest. -/
def c6WitnessResponse : LBOResponse :=
  ⟨500, 200, 300, 400, 355/2, 445/2, 37/50, [⟨1, 200, 50, 20, 0, 0, 15/2, 45/2, 355/2⟩]⟩

/-- Concrete score input used to instantiate the C5 theorem: multiple supplied. -/
def c5SuppliedInput : ScoreInput := ⟨some 0, some 0, some 10, none, none⟩

/-- Concrete score input on which the C5 claim text and the code disagree:
ev_ebitda absent while ev and ebitda are present. -/
def c5MissingMultInput : ScoreInput := ⟨none, none, none, some 100, some 10⟩

/-- A stored deal document: a loosely-typed record in the document store in
which any field may be absent (id and timestamps always exist). -/
structure DealDoc where
  id : String
  name : Option String
  sector : Option String
  subsector : Option String
  geography : Option String
  revenue : Option ℚ
  ebitda : Option ℚ
  ebitda_margin : Option ℚ
  ev : Option ℚ
  ev_ebitda : Option ℚ
  growth_rate : Option ℚ
  net_debt : Option ℚ
  deal_stage : Option String
  source : Option String
  created_at : ℕ
  updated_at : ℕ
deriving DecidableEq

/-- The normalized deal produced by serialize_deal (DealOut in server.py). -/
structure DealOut where
  id : String
  name : Option String
  sector : Option String
  subsector : Option String
  geography : Option String
  revenue : ℚ
  ebitda : ℚ
  ebitda_margin : ℚ
  ev : ℚ
  ev_ebitda : ℚ
  growth_rate : ℚ
  net_debt : ℚ
  deal_stage : String
  source : Option String
  created_at : ℕ
  updated_at : ℕ
  score : ℚ
deriving DecidableEq

/-- serialize_deal from server.py: numeric fields default to 0, a falsy (absent
or zero) ev_ebitda is recomputed, and the score is computed on the result. -/
def serialize_deal (doc : DealDoc) : DealOut :=
  let revenue := doc.revenue.getD 0
  let ebitda := doc.ebitda.getD 0
  let ebitda_margin := doc.ebitda_margin.getD 0
  let ev := doc.ev.getD 0
  let ev_eb := if doc.ev_ebitda.getD 0 = 0 then compute_ev_ebitda ev ebitda else doc.ev_ebitda.getD 0
  let growth := doc.growth_rate.getD 0
  let net_debt := doc.net_debt.getD 0
  { id := doc.id, name := doc.name, sector := doc.sector, subsector := doc.subsector,
    geography := doc.geography, revenue := revenue, ebitda := ebitda,
    ebitda_margin := ebitda_margin, ev := ev, ev_ebitda := ev_eb,
    growth_rate := growth, net_debt := net_debt,
    deal_stage := doc.deal_stage.getD "sourced", source := doc.source,
    created_at := doc.created_at, updated_at := doc.updated_at,
    score := compute_score ⟨some growth, some ebitda_margin, some ev_eb, some ev, some ebitda⟩ }

/-- The create-deal payload (DealCreate in server.py). -/
structure DealCreate where
  name : String
  sector : String
  subsector : Option String
  geography : String
  revenue : ℚ
  ebitda : ℚ
  ebitda_margin : ℚ
  ev : ℚ
  ev_ebitda : Option ℚ
  growth_rate : ℚ
  net_debt : ℚ
  deal_stage : String
  source : Option String
deriving DecidableEq

/-- create_deal from server.py: a falsy (absent or zero) supplied ev_ebitda is
replaced by the recomputed multiple; the fresh id comes from outside. -/
def create_deal (p : DealCreate) (id : String) (now : ℕ) : DealDoc :=
  let evm := if p.ev_ebitda.getD 0 = 0 then compute_ev_ebitda p.ev p.ebitda else p.ev_ebitda.getD 0
  { id := id, name := some p.name, sector := some p.sector, subsector := p.subsector,
    geography := some p.geography, revenue := some p.revenue, ebitda := some p.ebitda,
    ebitda_margin := some p.ebitda_margin, ev := some p.ev, ev_ebitda := some evm,
    growth_rate := some p.growth_rate, net_debt := some p.net_debt,
    deal_stage := some p.deal_stage, source := p.source, created_at := now, updated_at := now }

/-- The update-deal payload (DealUpdate in server.py): fields supplied as None
are dropped from the update set, so they are modelled as absent. -/
structure DealUpdate where
  name : Option String
  sector : Option String
  subsector : Option String
  geography : Option String
  revenue : Option ℚ
  ebitda : Option ℚ
  ebitda_margin : Option ℚ
  ev : Option ℚ
  ev_ebitda : Option ℚ
  growth_rate : Option ℚ
  net_debt : Option ℚ
  deal_stage : Option String
  source : Option String
deriving DecidableEq

/-- Mongo $set semantics for one field: the update value if supplied, else the
stored value. -/
def setField {α : Type} (u old : Option α) : Option α :=
  match u with
  | some v => some v
  | none => old

/-- The ev_ebitda entry of the update set: recomputed from the effective
post-update ev and ebitda when either is supplied, else the payload value. -/
def evUpdate (doc : DealDoc) (p : DealUpdate) : Option ℚ :=
  if p.ev.isSome || p.ebitda.isSome then
    some (compute_ev_ebitda (p.ev.getD (doc.ev.getD 0)) (p.ebitda.getD (doc.ebitda.getD 0)))
  else p.ev_ebitda

/-- update_deal from server.py applied to an existing document: $set of the
supplied fields, the possibly recomputed ev_ebitda, and updated_at. -/
def update_deal (doc : DealDoc) (p : DealUpdate) (now : ℕ) : DealDoc :=
  { id := doc.id,
    name := setField p.name doc.name,
    sector := setField p.sector doc.sector,
    subsector := setField p.subsector doc.subsector,
    geography := setField p.geography doc.geography,
    revenue := setField p.revenue doc.revenue,
    ebitda := setField p.ebitda doc.ebitda,
    ebitda_margin := setField p.ebitda_margin doc.ebitda_margin,
    ev := setField p.ev doc.ev,
    ev_ebitda := setField (evUpdate doc p) doc.ev_ebitda,
    growth_rate := setField p.growth_rate doc.growth_rate,
    net_debt := setField p.net_debt doc.net_debt,
    deal_stage := setField p.deal_stage doc.deal_stage,
    source := setField p.source doc.source,
    created_at := doc.created_at,
    updated_at := now }

/-- The optional query parameters of GET /deals (ScreenerFilters). -/
structure Filters where
  sector : Option String
  geography : Option String
  ev_ebitda_min : Option ℚ
  ev_ebitda_max : Option ℚ
  revenue_min : Option ℚ
  revenue_max : Option ℚ
deriving DecidableEq

/-- The Mongo query list_deals builds: sector and geography equality is added
only for truthy (nonempty) values, and a revenue range is added when either
bound is supplied (a document without a revenue field fails the range). -/
def mongoMatch (f : Filters) (d : DealDoc) : Bool :=
  (match f.sector with
   | none => true
   | some s => if s = "" then true else decide (d.sector = some s)) &&
  (match f.geography with
   | none => true
   | some g => if g = "" then true else decide (d.geography = some g)) &&
  (if f.revenue_min.isSome || f.revenue_max.isSome then
     match d.revenue with
     | none => false
     | some r =>
       (match f.revenue_min with | none => true | some m => decide (m ≤ r)) &&
       (match f.revenue_max with | none => true | some M => decide (r ≤ M))
   else true)

/-- The within_ev_ebitda post-filter of list_deals. -/
def within_ev_ebitda (f : Filters) (x : DealOut) : Bool :=
  (match f.ev_ebitda_min with | none => true | some m => !(decide (x.ev_ebitda < m))) &&
  (match f.ev_ebitda_max with | none => true | some M => !(decide (M < x.ev_ebitda)))

/-- Stable insertion into a score-descending list: the new element goes before
the first element whose score does not exceed it. -/
def insertByScore (x : DealOut) : List DealOut → List DealOut
  | [] => [x]
  | y :: ys => if y.score ≤ x.score then x :: y :: ys else y :: insertByScore x ys

/-- The stable score-descending sort performed by list_deals
(list.sort(key=score, reverse=True)). -/
def sortByScoreDesc : List DealOut → List DealOut
  | [] => []
  | x :: xs => insertByScore x (sortByScoreDesc xs)

/-- list_deals from server.py: Mongo pre-filter in storage order, truncation to
limit, normalization, ev_ebitda post-filter (only when a bound is supplied),
then the stable sort by score descending. -/
def list_deals (store : List DealDoc) (f : Filters) (lim : ℕ) : List DealOut :=
  let docs := (store.filter (mongoMatch f)).take lim
  let out := docs.map serialize_deal
  let out2 := if f.ev_ebitda_min.isSome || f.ev_ebitda_max.isSome
    then out.filter (within_ev_ebitda f) else out
  sortByScoreDesc out2

/-- The POST /deals/screener endpoint: list_deals with the default limit 200. -/
def screener (store : List DealDoc) (f : Filters) : List DealOut :=
  list_deals store f 200

/-- The filter predicate exactly as claim C3 words it: every supplied filter is
an exact-equality or inclusive-bound predicate on the normalized deal. -/
def claimMatchC3 (f : Filters) (x : DealOut) : Bool :=
  (match f.sector with | none => true | some s => decide (x.sector = some s)) &&
  (match f.geography with | none => true | some g => decide (x.geography = some g)) &&
  (match f.revenue_min with | none => true | some m => decide (m ≤ x.revenue)) &&
  (match f.revenue_max with | none => true | some M => decide (x.revenue ≤ M)) &&
  (match f.ev_ebitda_min with | none => true | some m => decide (m ≤ x.ev_ebitda)) &&
  (match f.ev_ebitda_max with | none => true | some M => decide (x.ev_ebitda ≤ M))

/-- list_deals exactly as claim C3 words it: all matching deals, sorted by
score descending, then truncated to the limit. -/
def listDealsClaimC3 (store : List DealDoc) (f : Filters) (lim : ℕ) : List DealOut :=
  (sortByScoreDesc ((store.map serialize_deal).filter (claimMatchC3 f))).take lim

/-- Amended sector predicate: exact equality, with an absent or empty filter a
no-op. -/
def sectorOk (f : Filters) (d : DealDoc) : Bool :=
  match f.sector with
  | none => true
  | some s => decide (s = "") || decide (d.sector = some s)

/-- Amended geography predicate: exact equality, with an absent or empty filter
a no-op. -/
def geographyOk (f : Filters) (d : DealDoc) : Bool :=
  match f.geography with
  | none => true
  | some g => decide (g = "") || decide (d.geography = some g)

/-- Amended revenue predicate: inclusive bounds on the stored revenue; with no
bound supplied it is a no-op, otherwise a missing revenue field fails. -/
def revenueOk (f : Filters) (d : DealDoc) : Bool :=
  match f.revenue_min, f.revenue_max with
  | none, none => true
  | mn, mx =>
    match d.revenue with
    | none => false
    | some r =>
      (match mn with | none => true | some m => decide (m ≤ r)) &&
      (match mx with | none => true | some M => decide (r ≤ M))

/-- Amended ev_ebitda predicate: inclusive bounds on the normalized multiple. -/
def evBoundsOk (f : Filters) (x : DealOut) : Bool :=
  (match f.ev_ebitda_min with | none => true | some m => decide (m ≤ x.ev_ebitda)) &&
  (match f.ev_ebitda_max with | none => true | some M => decide (x.ev_ebitda ≤ M))

/-- list_deals as amended: select storage-order deals passing the sector,
geography and revenue predicates, truncate to limit, normalize, keep those
within the ev_ebitda bounds, and stably sort by score descending. -/
def listDealsRefC3 (store : List DealDoc) (f : Filters) (lim : ℕ) : List DealOut :=
  sortByScoreDesc
    ((((store.filter (fun d => sectorOk f d && geographyOk f d && revenueOk f d)).take lim).map
      serialize_deal).filter (evBoundsOk f))

/-- A low-scoring deal stored first (score 3.33). -/
def c3DocLow : DealDoc :=
  ⟨"id1", some "A", some "Tech", none, some "US", some 100, some 10, some 0, some 100,
   some 10, some 0, some 0, some "sourced", none, 0, 0⟩

/-- A high-scoring deal stored second (score 23.33). -/
def c3DocHigh : DealDoc :=
  ⟨"id2", some "B", some "Tech", none, some "US", some 100, some 50, some (1/2), some 500,
   some 10, some 0, some 0, some "sourced", none, 0, 0⟩

/-- The empty filter set. -/
def c3NoFilters : Filters := ⟨none, none, none, none, none, none⟩

/-- A cell of a parsed CSV row: either a non-numeric string or a number. -/
inductive Cell where
  | str : String → Cell
  | num : ℚ → Cell
deriving DecidableEq

/-- Python float(cell): succeeds on numbers, raises on non-numeric strings. -/
def cellFloat : Cell → Option ℚ
  | .num q => some q
  | .str _ => none

/-- Python str(cell): total. -/
def cellStr : Cell → String
  | .str s => s
  | .num q => toString q

/-- The resolved column map built by upload_complete. -/
structure ColMap where
  name : Option String
  sector : Option String
  subsector : Option String
  geography : Option String
  revenue : Option String
  ebitda : Option String
  ev : Option String
  ev_ebitda : Option String
  growth_rate : Option String
  net_debt : Option String
deriving DecidableEq

/-- Python str.lower on the character list of a string. -/
def lowerStr (s : String) : String := String.mk (s.data.map Char.toLower)

/-- The lower_cols dict: lowercase column name to original, later columns
winning; lookup of one candidate alias. -/
def lowerLookup (header : List String) (n : String) : Option String :=
  (header.filter (fun c => lowerStr c == n)).getLast?

/-- The pick helper: the first alias that resolves against lower_cols. -/
def pick (header : List String) : List String → Option String
  | [] => none
  | n :: ns =>
    match lowerLookup header n with
    | some c => some c
    | none => pick header ns

/-- The full column map of upload_complete, alias lists as in the source. -/
def buildColMap (header : List String) : ColMap :=
  ⟨pick header ["name", "company", "company_name"],
   pick header ["sector"],
   pick header ["subsector", "sub_sector"],
   pick header ["geography", "geo", "country", "region"],
   pick header ["revenue", "ltm_revenue", "ntm_revenue"],
   pick header ["ebitda", "ltm_ebitda", "ntm_ebitda"],
   pick header ["ev", "enterprise_value"],
   pick header ["ev/ebitda", "ev_ebitda", "multiple"],
   pick header ["growth", "growth_rate", "revenue_growth"],
   pick header ["net_debt", "debt"]⟩

/-- The required-column check, in source order, yielding the first missing
logical field. -/
def requiredMissing (cm : ColMap) : Option String :=
  if cm.name.isNone then some "name"
  else if cm.sector.isNone then some "sector"
  else if cm.geography.isNone then some "geography"
  else if cm.revenue.isNone then some "revenue"
  else if cm.ebitda.isNone then some "ebitda"
  else none

/-- Candidate numeric field: coerce the mapped column if one resolved, else the
default. -/
def optNum (c : Option String) (row : List (String × Cell)) (dflt : ℚ) : Option ℚ :=
  match c with
  | some col => (row.lookup col).bind cellFloat
  | none => some dflt

/-- Candidate subsector: str of the mapped column if one resolved, else None. -/
def optSub (c : Option String) (row : List (String × Cell)) : Option (Option String) :=
  match c with
  | some col => (row.lookup col).map (fun v => some (cellStr v))
  | none => some none

/-- One iteration of the upload_complete row loop: the whole try-block, where
any failing coercion (or missing cell) makes the row parse to none. The fresh
per-row uuid is outside the model (id left empty). -/
def parseRow (cm : ColMap) (now : ℕ) (row : List (String × Cell)) : Option DealDoc :=
  match cm.name, cm.sector, cm.geography, cm.revenue, cm.ebitda with
  | some cn, some cs, some cg, some cr, some ce =>
    match row.lookup cn, row.lookup cs, row.lookup cg,
        (row.lookup cr).bind cellFloat, (row.lookup ce).bind cellFloat with
    | some vn, some vs, some vg, some revenue, some ebitda =>
      match optSub cm.subsector row, optNum cm.ev row (max ebitda 0 * 8) with
      | some subsector, some ev =>
        match optNum cm.ev_ebitda row (compute_ev_ebitda ev ebitda),
            optNum cm.growth_rate row 0, optNum cm.net_debt row 0 with
        | some ev_eb, some growth, some net_debt =>
          some
            { id := "", name := some (cellStr vn), sector := some (cellStr vs),
              subsector := subsector, geography := some (cellStr vg),
              revenue := some revenue, ebitda := some ebitda,
              ebitda_margin := some (if revenue = 0 then 0 else ebitda / revenue),
              ev := some ev, ev_ebitda := some ev_eb,
              growth_rate := some growth, net_debt := some net_debt,
              deal_stage := some "sourced", source := some "csv_upload",
              created_at := now, updated_at := now }
        | _, _, _ => none
      | _, _ => none
    | _, _, _, _, _ => none
  | _, _, _, _, _ => none

/-- The ingestion core of upload_complete on parsed rows: resolve columns,
reject wholesale on a missing required column, else keep the rows whose
coercion succeeds and report their count. -/
def ingest_csv (header : List String) (rows : List (List (String × Cell))) (now : ℕ) :
    Except String (ℕ × List DealDoc) :=
  let cm := buildColMap header
  match requiredMissing cm with
  | some r => Except.error ("Missing required column in CSV: " ++ r)
  | none =>
    let records := rows.filterMap (parseRow cm now)
    Except.ok (records.length, records)

/-- The inserted count of an ingestion outcome, if it succeeded. -/
def insertedCount (e : Except String (ℕ × List DealDoc)) : Option ℕ :=
  match e with
  | Except.ok (n, _) => some n
  | Except.error _ => none

/-- The CSV header of the C8 example. -/
def c8Header : List String := ["name", "sector", "geography", "revenue", "ebitda", "ev"]

/-- Three well-formed rows under c8Header. -/
def c8GoodRows : List (List (String × Cell)) :=
  [[("name", Cell.str "A"), ("sector", Cell.str "Tech"), ("geography", Cell.str "US"),
    ("revenue", Cell.num 100), ("ebitda", Cell.num 10), ("ev", Cell.num 80)],
   [("name", Cell.str "B"), ("sector", Cell.str "Industrials"), ("geography", Cell.str "EU"),
    ("revenue", Cell.num 250), ("ebitda", Cell.num 40), ("ev", Cell.num 300)],
   [("name", Cell.str "C"), ("sector", Cell.str "Healthcare"), ("geography", Cell.str "US"),
    ("revenue", Cell.num 50), ("ebitda", Cell.num 5), ("ev", Cell.num 60)]]

/-- A malformed fourth row: non-numeric revenue. -/
def c8BadRow : List (String × Cell) :=
  [("name", Cell.str "D"), ("sector", Cell.str "Tech"), ("geography", Cell.str "US"),
   ("revenue", Cell.str "abc"), ("ebitda", Cell.num 7), ("ev", Cell.num 70)]

/-- A header with no resolvable geography column. -/
def c9BadHeader : List String := ["name", "sector", "revenue", "ebitda"]

/-- An existing stored deal for the C7 witness. -/
def c7Doc : DealDoc :=
  ⟨"d1", some "Acme", some "Tech", none, some "US", some 100, some 10, some (1/10), some 80,
   some 8, some 0, some 0, some "sourced", none, 0, 0⟩

/-- A patch supplying only ev. -/
def c7EvOnlyPatch : DealUpdate :=
  ⟨none, none, none, none, none, none, none, some 200, none, none, none, none, none⟩

/-- A create payload explicitly supplying ev_ebitda 0 with nonzero ev and
ebitda. -/
def c10Create : DealCreate :=
  ⟨"Acme", "Tech", none, "US", 100, 10, 1/10, 100, some 0, 0, 0, "sourced", none⟩

/-- A stored record with ev_ebitda exactly 0 and nonzero ev and ebitda. -/
def c10Doc : DealDoc :=
  ⟨"d2", some "B", some "Tech", none, some "US", some 100, some 10, some (1/10), some 100,
   some 0, some 0, some 0, some "sourced", none, 0, 0⟩

/-- C4: compute_ev_ebitda returns 0 when ebitda = 0 and round(ev/ebitda, 2)
otherwise; being a total function of its rational inputs, it never raises. -/
theorem C4_ev_ebitda_total (ev ebitda : ℚ) :
    (ebitda = 0 → compute_ev_ebitda ev ebitda = 0) ∧
    (ebitda ≠ 0 → compute_ev_ebitda ev ebitda = round2 (ev / ebitda)) := by
  constructor <;> intro h <;> simp [compute_ev_ebitda, h]

/-- Witness for C4 at ev = 7, ebitda = 0 and ev = 10, ebitda = 4. -/
theorem C4_ev_ebitda_total_witness :
    compute_ev_ebitda 7 0 = 0 ∧ compute_ev_ebitda 10 4 = round2 (10 / 4) :=
  ⟨(C4_ev_ebitda_total 7 0).1 rfl, (C4_ev_ebitda_total 10 4).2 (by norm_num)⟩

/-- C5 counterexample: on a record with no ev_ebitda but ev = 100, ebitda = 10,
compute_score uses the recomputed multiple 10 (score 3.33), not 0 (score 20)
as the claim states. -/
theorem C5_score_counterexample : compute_score c5MissingMultInput ≠ scoreClaimC5 c5MissingMultInput := by
  norm_num [compute_score, scoreClaimC5, c5MissingMultInput, compute_ev_ebitda, round2, pyRoundInt]

/-- C5 (amended): score is round(100*(0.4*margin + 0.4*growth + 0.2/(1+max(mult-5,0))), 2)
where missing margin or growth is treated as 0, but a missing multiple is
recomputed as compute_ev_ebitda of the record's ev and ebitda (themselves
defaulted to 0); no upper bound is enforced, so the score can exceed 100. -/
theorem C5_score_amended :
    (∀ d : ScoreInput, ∀ v : ℚ, d.ev_ebitda = some v →
      compute_score d = round2 (100 * ((4/10) * d.ebitda_margin.getD 0 +
        (4/10) * d.growth_rate.getD 0 + (2/10) * (1 / (1 + max (v - 5) 0))))) ∧
    (∀ d : ScoreInput, d.ev_ebitda = none →
      compute_score d = round2 (100 * ((4/10) * d.ebitda_margin.getD 0 +
        (4/10) * d.growth_rate.getD 0 +
        (2/10) * (1 / (1 + max (compute_ev_ebitda (d.ev.getD 0) (d.ebitda.getD 0) - 5) 0))))) ∧
    (∃ d : ScoreInput, 100 < compute_score d) := by
  refine ⟨fun d v h => by simp [compute_score, h], fun d h => by simp [compute_score, h], ?_⟩
  refine ⟨⟨some 1, some 2, some 0, none, none⟩, ?_⟩
  norm_num [compute_score, round2, pyRoundInt]

/-- Witness for C5 (amended) at a record with supplied multiple 10. -/
theorem C5_score_amended_witness :
    c5SuppliedInput.ev_ebitda = some 10 ∧
    compute_score c5SuppliedInput = round2 (100 * ((4/10) * c5SuppliedInput.ebitda_margin.getD 0 +
      (4/10) * c5SuppliedInput.growth_rate.getD 0 + (2/10) * (1 / (1 + max ((10:ℚ) - 5) 0)))) :=
  ⟨rfl, C5_score_amended.1 c5SuppliedInput 10 rfl⟩

/-- The loop state after k iterations carries the spec-side debt balance. -/
theorem stSpec_debt (req : LBORequest) (k : ℕ) : (stSpec req k).debt = debtSpec req k := by
  cases k <;> rfl

/-- One loop iteration maps the spec-side state for year k to that of year k+1
and emits the spec-side row. -/
theorem lboYear_stSpec (req : LBORequest) (k : ℕ) :
    lboYear req (stSpec req k) (k+1) = (stSpec req (k+1), rowSpec req (k+1)) := by
  cases k <;> rfl

/-- Running n loop iterations from the year-k spec state yields the year-(k+n)
spec state and the spec-side rows for years k+1 .. k+n. -/
theorem lboRun_spec (req : LBORequest) :
    ∀ (n k : ℕ), lboRun req (k+1) n (stSpec req k) =
      (stSpec req (k+n), (List.range n).map (fun i => rowSpec req (k+1+i))) := by
  intro n
  induction n with
  | zero => intro k; simp [lboRun]
  | succ n ih =>
    intro k
    show lboRun req (k+1) (n+1) (stSpec req k) = _
    simp only [lboRun, lboYear_stSpec req k]
    rw [show k+1+1 = (k+1)+1 from rfl, ih (k+1)]
    have hk : k + 1 + n = k + (n + 1) := by omega
    rw [hk]
    congr 1
    rw [List.range_succ_eq_map, List.map_cons, List.map_map]
    congr 1
    apply List.map_congr_left
    intro i _
    simp only [Function.comp_apply]
    congr 1
    omega

/-- The whole simulation equals the spec recurrence: final spec state plus the
rows for years 1 .. years. -/
theorem lbo_core_eq (req : LBORequest) :
    lbo_core req = (stSpec req req.years, (List.range req.years).map (fun i => rowSpec req (i+1))) := by
  have h := lboRun_spec req req.years 0
  rw [lbo_core]
  rw [show lboInit req = stSpec req 0 from rfl]
  rw [h]
  congr 1
  · congr 1
    omega
  · apply List.map_congr_left
    intro i _
    congr 1
    omega

/-- Rounding never goes below the floor. -/
theorem le_pyRoundInt (x : ℚ) : ⌊x⌋ ≤ pyRoundInt x := by
  rw [pyRoundInt]
  split_ifs <;> omega

/-- Rounding never exceeds the floor plus one. -/
theorem pyRoundInt_le (x : ℚ) : pyRoundInt x ≤ ⌊x⌋ + 1 := by
  rw [pyRoundInt]
  split_ifs <;> omega

/-- Rounding a non-negative rational gives a non-negative integer. -/
theorem pyRoundInt_nonneg {x : ℚ} (h : 0 ≤ x) : 0 ≤ pyRoundInt x := by
  have h1 : (0 : ℤ) ≤ ⌊x⌋ := Int.floor_nonneg.mpr h
  have h2 := le_pyRoundInt x
  omega

/-- Round-half-to-even is monotone. -/
theorem pyRoundInt_mono {x y : ℚ} (h : x ≤ y) : pyRoundInt x ≤ pyRoundInt y := by
  rcases eq_or_lt_of_le (Int.floor_le_floor h) with hf | hf
  · rw [pyRoundInt, pyRoundInt, ← hf]
    split_ifs <;> first
      | omega
      | (exfalso; revert h; intro h; linarith [Int.floor_le x, Int.floor_le y])
  · calc pyRoundInt x ≤ ⌊x⌋ + 1 := pyRoundInt_le x
      _ ≤ ⌊y⌋ := by omega
      _ ≤ pyRoundInt y := le_pyRoundInt y

/-- Rounding to two decimals preserves non-negativity. -/
theorem round2_nonneg {x : ℚ} (h : 0 ≤ x) : 0 ≤ round2 x := by
  rw [round2]
  have h2 : 0 ≤ pyRoundInt (x * 100) := pyRoundInt_nonneg (by positivity)
  exact div_nonneg (by exact_mod_cast h2) (by norm_num)

/-- Rounding to two decimals is monotone. -/
theorem round2_mono {x y : ℚ} (h : x ≤ y) : round2 x ≤ round2 y := by
  rw [round2, round2]
  have h2 : pyRoundInt (x * 100) ≤ pyRoundInt (y * 100) :=
    pyRoundInt_mono (by linarith)
  have h3 : ((pyRoundInt (x * 100) : ℚ)) ≤ ((pyRoundInt (y * 100) : ℚ)) := by exact_mod_cast h2
  linarith

/-- If the entry debt is non-negative, every debt balance is non-negative. -/
theorem debtSpec_nonneg (req : LBORequest) (h0 : 0 ≤ debtSpec req 0) :
    ∀ n, 0 ≤ debtSpec req n
  | 0 => h0
  | _+1 => le_max_right _ 0

/-- Debt paydown with a non-negative balance never increases the balance. -/
theorem debtSpec_succ_le (req : LBORequest) (n : ℕ) (h : 0 ≤ debtSpec req n) :
    debtSpec req (n+1) ≤ debtSpec req n :=
  max_le (sub_le_self _ (le_max_right _ 0)) h

/-- Claim C1: on every request with positive entry equity and a positive number
of years, lbo_quick returns exactly the spec reference computation: the
schedule is the spec recurrence rows for years 1..years (length years), the
exit, equity and MOIC outputs are the spec formulas rounded to 2 decimals, and
irr is moic**(1/years) - 1 rounded to 4 decimals. -/
theorem C1_lbo_matches_reference (req : LBORequest)
    (hpos : 0 < entryEquityRaw req) (hy : 1 ≤ req.years) :
    lbo_quick req = Except.ok
      { entry_ev := round2 (req.entry_ebitda * req.entry_ev_ebitda),
        entry_debt := round2 (req.leverage_multiple * req.entry_ebitda),
        entry_equity := round2 (entryEquityRaw req),
        exit_ev := round2 (exitEvSpec req),
        exit_debt := round2 (debtSpec req req.years),
        equity_value_at_exit := round2 (exitEvSpec req - debtSpec req req.years),
        moic := round2 (moicSpec req),
        yearly := (List.range req.years).map (fun i => rowSpec req (i+1)) } ∧
    ((List.range req.years).map (fun i => rowSpec req (i+1))).length = req.years ∧
    lbo_irr req = irrSpec req := by
  obtain ⟨m, hm⟩ : ∃ m, req.years = m + 1 := ⟨req.years - 1, by omega⟩
  have hneg : ¬ (req.entry_ebitda * req.entry_ev_ebitda - req.leverage_multiple * req.entry_ebitda ≤ 0) :=
    not_le.mpr hpos
  have heb : (stSpec req req.years).ebitda = revSpec req req.years * req.ebitda_margin := by
    rw [hm]; rfl
  refine ⟨?_, ?_, ?_⟩
  · simp only [lbo_quick]
    rw [if_neg hneg, lbo_core_eq]
    simp only [heb, stSpec_debt, entryEquityRaw, exitEvSpec, moicSpec]
  · rw [List.length_map, List.length_range]
  · have hmo : lbo_moic_raw req = moicSpec req := by
      rw [lbo_moic_raw, lbo_core_eq]
      simp only [heb, stSpec_debt, moicSpec, exitEvSpec]
    rw [lbo_irr, irrSpec, hmo]

/-- Witness for C1 at the concrete two-year request c1Request. -/
theorem C1_lbo_matches_reference_witness :
    0 < entryEquityRaw c1Request ∧ 1 ≤ c1Request.years ∧
    (lbo_quick c1Request = Except.ok
      { entry_ev := round2 (c1Request.entry_ebitda * c1Request.entry_ev_ebitda),
        entry_debt := round2 (c1Request.leverage_multiple * c1Request.entry_ebitda),
        entry_equity := round2 (entryEquityRaw c1Request),
        exit_ev := round2 (exitEvSpec c1Request),
        exit_debt := round2 (debtSpec c1Request c1Request.years),
        equity_value_at_exit := round2 (exitEvSpec c1Request - debtSpec c1Request c1Request.years),
        moic := round2 (moicSpec c1Request),
        yearly := (List.range c1Request.years).map (fun i => rowSpec c1Request (i+1)) } ∧
     ((List.range c1Request.years).map (fun i => rowSpec c1Request (i+1))).length = c1Request.years ∧
     lbo_irr c1Request = irrSpec c1Request) := by
  have h1 : 0 < entryEquityRaw c1Request := by norm_num [entryEquityRaw, c1Request]
  have h2 : 1 ≤ c1Request.years := by norm_num [c1Request]
  exact ⟨h1, h2, C1_lbo_matches_reference c1Request h1 h2⟩

/-- Claim C2: lbo_quick rejects a request with the equity-must-be-positive
validation error exactly when entry equity is not strictly positive, before
any year is simulated; the spec example with leverage 4 succeeds with
entry_ev 500, entry_debt 200, entry_equity 300, while leverage 20 is
rejected. -/
theorem C2_equity_guard :
    (∀ req : LBORequest, entryEquityRaw req ≤ 0 → lbo_quick req = Except.error lboErrMsg) ∧
    (∀ req : LBORequest, 0 < entryEquityRaw req → ∃ resp, lbo_quick req = Except.ok resp) ∧
    (∃ resp, lbo_quick c2RequestOk = Except.ok resp ∧
      resp.entry_ev = 500 ∧ resp.entry_debt = 200 ∧ resp.entry_equity = 300) ∧
    (∀ resp, lbo_quick c2RequestBad ≠ Except.ok resp) := by
  have hok : lbo_quick c2RequestOk = Except.ok
      ⟨500, 200, 300, 400, 355/2, 445/2, 37/50, [⟨1, 200, 50, 20, 0, 0, 15/2, 45/2, 355/2⟩]⟩ := by
    norm_num [lbo_quick, lbo_core, lboRun, lboYear, lboInit, round2, pyRoundInt, c2RequestOk]
  refine ⟨?_, ?_, ?_, ?_⟩
  · intro req h
    simp only [lbo_quick]
    rw [if_pos (show req.entry_ebitda * req.entry_ev_ebitda - req.leverage_multiple * req.entry_ebitda ≤ 0 from h)]
  · intro req h
    simp only [lbo_quick]
    rw [if_neg (show ¬ (req.entry_ebitda * req.entry_ev_ebitda - req.leverage_multiple * req.entry_ebitda ≤ 0) from not_le.mpr h)]
    exact ⟨_, rfl⟩
  · exact ⟨_, hok, rfl, rfl, rfl⟩
  · intro resp
    have herr : lbo_quick c2RequestBad = Except.error lboErrMsg := by
      simp only [lbo_quick, c2RequestBad]
      norm_num
    rw [herr]
    simp

/-- Witness for C2 at the two concrete spec examples. -/
theorem C2_equity_guard_witness :
    lbo_quick c2RequestBad = Except.error lboErrMsg ∧
    (∃ resp, lbo_quick c2RequestOk = Except.ok resp) :=
  ⟨C2_equity_guard.1 c2RequestBad (by norm_num [entryEquityRaw, c2RequestBad]),
   C2_equity_guard.2.1 c2RequestOk (by norm_num [entryEquityRaw, c2RequestOk])⟩

/-- Claim C6 (amended): the schedule has length years and every debt_end is
non-negative; when additionally the entry debt is non-negative, the rounded
debt balances, starting from the entry debt, form a non-increasing sequence
whenever every fcf is non-negative. -/
theorem C6_schedule_invariants (req : LBORequest) (resp : LBOResponse)
    (h : lbo_quick req = Except.ok resp) :
    resp.yearly.length = req.years ∧
    (∀ r ∈ resp.yearly, 0 ≤ r.debt_end) ∧
    (0 ≤ req.leverage_multiple * req.entry_ebitda →
      (∀ r ∈ resp.yearly, 0 ≤ r.fcf) →
      List.Chain' (fun a b => b ≤ a) (resp.entry_debt :: resp.yearly.map YearRow.debt_end)) := by
  simp only [lbo_quick] at h
  split_ifs at h
  rw [Except.ok.injEq] at h
  subst h
  simp only [lbo_core_eq]
  refine ⟨?_, ?_, ?_⟩
  · simp [List.length_map, List.length_range]
  · intro r hr
    simp only [List.mem_map, List.mem_range] at hr
    obtain ⟨i, _, rfl⟩ := hr
    exact round2_nonneg (le_max_right _ 0)
  · intro hd _
    have h0 : 0 ≤ debtSpec req 0 := hd
    simp only [List.map_map]
    have hlist : (round2 (req.leverage_multiple * req.entry_ebitda) ::
        (List.range req.years).map (YearRow.debt_end ∘ fun i => rowSpec req (i+1))) =
        (List.range (req.years+1)).map (fun i => round2 (debtSpec req i)) := by
      rw [List.range_succ_eq_map, List.map_cons, List.map_map]
      rfl
    rw [hlist, List.chain'_map, List.chain'_range_succ]
    intro m _
    exact round2_mono (debtSpec_succ_le req m (debtSpec_nonneg req h0 m))

/-- Counterexample to claim C6 as stated: on c6Request (negative leverage, so
entry debt -10) every fcf is non-negative, yet the debt sequence rises from
the entry debt -10 to the clamped year-1 balance 0, so it is not
non-increasing from the entry debt onward. -/
theorem C6_counterexample :
    lbo_quick c6Request = Except.ok c6Response ∧
    (∀ r ∈ c6Response.yearly, 0 ≤ r.fcf) ∧
    ¬ List.Chain' (fun a b => b ≤ a) (c6Response.entry_debt :: c6Response.yearly.map YearRow.debt_end) := by
  refine ⟨?_, ?_, ?_⟩
  · norm_num [lbo_quick, lbo_core, lboRun, lboYear, lboInit, round2, pyRoundInt, c6Request, c6Response]
  · intro r hr
    simp only [c6Response, List.mem_singleton] at hr
    subst hr
    norm_num
  · simp only [c6Response, List.map_cons, List.map_nil, List.chain'_cons]
    norm_num

/-- The Mongo query of list_deals agrees pointwise with the amended
sector, geography and revenue predicates. -/
theorem mongoMatch_eq (f : Filters) (d : DealDoc) :
    mongoMatch f d = (sectorOk f d && geographyOk f d && revenueOk f d) := by
  rw [mongoMatch, sectorOk, geographyOk, revenueOk]
  rcases f with ⟨fs, fg, femin, femax, frmin, frmax⟩
  rcases fs with _ | s <;> rcases fg with _ | g <;>
    rcases frmin with _ | m <;> rcases frmax with _ | M <;>
    rcases hdr : d.revenue with _ | r <;>
    simp_all <;> split_ifs <;> simp_all

/-- The negated strict bounds of within_ev_ebitda are the inclusive bounds. -/
theorem within_eq (f : Filters) (x : DealOut) :
    within_ev_ebitda f x = evBoundsOk f x := by
  rw [within_ev_ebitda, evBoundsOk]
  rcases f with ⟨fs, fg, femin, femax, frmin, frmax⟩
  rcases femin with _ | m <;> rcases femax with _ | M <;>
    simp [← decide_not, not_lt]

/-- Membership in a stable insertion. -/
theorem mem_insertByScore {b x : DealOut} {l : List DealOut} :
    b ∈ insertByScore x l ↔ b = x ∨ b ∈ l := by
  induction l with
  | nil => simp [insertByScore]
  | cons y ys ih =>
    rw [insertByScore]
    split_ifs <;> simp_all <;> tauto

/-- Stable insertion preserves the score-descending order. -/
theorem insertByScore_pairwise (x : DealOut) (l : List DealOut)
    (h : List.Pairwise (fun a b => b.score ≤ a.score) l) :
    List.Pairwise (fun a b => b.score ≤ a.score) (insertByScore x l) := by
  induction l with
  | nil => simp [insertByScore]
  | cons y ys ih =>
    rw [insertByScore]
    rcases List.pairwise_cons.mp h with ⟨hy, hys⟩
    split_ifs with hle
    · refine List.pairwise_cons.mpr ⟨?_, h⟩
      intro b hb
      rcases List.mem_cons.mp hb with rfl | hb
      · exact hle
      · exact le_trans (hy b hb) hle
    · refine List.pairwise_cons.mpr ⟨?_, ih hys⟩
      intro b hb
      rcases mem_insertByScore.mp hb with rfl | hb
      · exact le_of_lt (not_le.mp hle)
      · exact hy b hb

/-- The sort of list_deals is score-descending. -/
theorem sortByScoreDesc_pairwise (l : List DealOut) :
    List.Pairwise (fun a b => b.score ≤ a.score) (sortByScoreDesc l) := by
  induction l with
  | nil => exact List.Pairwise.nil
  | cons x xs ih => exact insertByScore_pairwise x _ ih

/-- Stable insertion does not disturb the subsequence at any fixed score. -/
theorem filter_insertByScore (s : ℚ) (x : DealOut) (l : List DealOut) :
    (insertByScore x l).filter (fun d => decide (d.score = s)) =
      (x :: l).filter (fun d => decide (d.score = s)) := by
  induction l with
  | nil => rfl
  | cons y ys ih =>
    rw [insertByScore]
    split_ifs with hle
    · rfl
    · by_cases hx : x.score = s
      · have hy : ¬ (y.score = s) := fun hy => hle (le_of_eq (hy.trans hx.symm))
        simp [List.filter_cons, hx, hy, ih]
      · simp [List.filter_cons, hx, ih]

/-- The sort of list_deals is stable: the subsequence at any fixed score is
kept in input order. -/
theorem sortByScoreDesc_stable (s : ℚ) (l : List DealOut) :
    (sortByScoreDesc l).filter (fun d => decide (d.score = s)) =
      l.filter (fun d => decide (d.score = s)) := by
  induction l with
  | nil => rfl
  | cons x xs ih =>
    rw [sortByScoreDesc, filter_insertByScore]
    simp only [List.filter_cons, ih]

/-- Claim C3 (amended): list_deals selects, in storage order, the deals
passing the sector, geography (exact equality, empty or absent a no-op) and
inclusive revenue-bound predicates, truncates to limit, normalizes, keeps the
page entries within the inclusive ev_ebitda bounds, and sorts the result by
score descending with a stable sort; screener is list_deals at limit 200. -/
theorem C3_screener_amended :
    (∀ (store : List DealDoc) (f : Filters) (lim : ℕ),
      list_deals store f lim = listDealsRefC3 store f lim) ∧
    (∀ (store : List DealDoc) (f : Filters), screener store f = list_deals store f 200) ∧
    (∀ (store : List DealDoc) (f : Filters) (lim : ℕ),
      List.Pairwise (fun a b => b.score ≤ a.score) (list_deals store f lim)) ∧
    (∀ (store : List DealDoc) (f : Filters) (lim : ℕ) (s : ℚ),
      (list_deals store f lim).filter (fun d => decide (d.score = s)) =
        ((((store.filter (fun d => sectorOk f d && geographyOk f d && revenueOk f d)).take
          lim).map serialize_deal).filter (evBoundsOk f)).filter (fun d => decide (d.score = s))) := by
  have hmain : ∀ (store : List DealDoc) (f : Filters) (lim : ℕ),
      list_deals store f lim = listDealsRefC3 store f lim := by
    intro store f lim
    rw [list_deals, listDealsRefC3]
    rw [List.filter_congr (fun d _ => mongoMatch_eq f d)]
    by_cases hg : f.ev_ebitda_min.isSome || f.ev_ebitda_max.isSome
    · rw [if_pos hg]
      congr 1
      exact List.filter_congr (fun x _ => within_eq f x)
    · rw [if_neg hg]
      congr 1
      symm
      apply List.filter_eq_self.mpr
      intro x _
      rcases hmin : f.ev_ebitda_min with _ | m <;> rcases hmax : f.ev_ebitda_max with _ | M <;>
        simp_all [evBoundsOk]
  refine ⟨hmain, fun store f => rfl, ?_, ?_⟩
  · intro store f lim
    rw [hmain, listDealsRefC3]
    exact sortByScoreDesc_pairwise _
  · intro store f lim s
    rw [hmain, listDealsRefC3, sortByScoreDesc_stable]

/-- Counterexample to claim C3 as stated: with two deals and limit 1, the code
truncates in storage order before sorting and returns the stored-first,
lower-scoring deal, while the claim (filter all, sort, then truncate) returns
the higher-scoring one. -/
theorem C3_counterexample :
    list_deals [c3DocLow, c3DocHigh] c3NoFilters 1 ≠
      listDealsClaimC3 [c3DocLow, c3DocHigh] c3NoFilters 1 := by
  norm_num [list_deals, listDealsClaimC3, c3NoFilters, c3DocLow, c3DocHigh, mongoMatch,
    claimMatchC3, serialize_deal, compute_score, compute_ev_ebitda, round2, pyRoundInt,
    sortByScoreDesc, insertByScore]

/-- Witness for C6 (amended) at the concrete request c6WitnessRequest. -/
theorem C6_schedule_invariants_witness :
    c6WitnessResponse.yearly.length = c6WitnessRequest.years ∧
    List.Chain' (fun a b => b ≤ a)
      (c6WitnessResponse.entry_debt :: c6WitnessResponse.yearly.map YearRow.debt_end) := by
  have h : lbo_quick c6WitnessRequest = Except.ok c6WitnessResponse := by
    norm_num [lbo_quick, lbo_core, lboRun, lboYear, lboInit, round2, pyRoundInt,
      c6WitnessRequest, c6WitnessResponse]
  refine ⟨(C6_schedule_invariants c6WitnessRequest c6WitnessResponse h).1,
    (C6_schedule_invariants c6WitnessRequest c6WitnessResponse h).2.2
      (by norm_num [c6WitnessRequest]) ?_⟩
  intro r hr
  simp only [c6WitnessResponse, List.mem_singleton] at hr
  subst hr
  norm_num

/-- Claim C7: update_deal on an existing deal changes only the supplied fields
plus updated_at; supplying ev or ebitda (or both) additionally sets ev_ebitda
recomputed from the effective post-update ev and ebitda, so updating only ev
uses the existing stored ebitda, and ebitda_margin is untouched by any patch
not supplying it. -/
theorem C7_update_frame (doc : DealDoc) (p : DealUpdate) (now : ℕ) :
    (update_deal doc p now).updated_at = now ∧
    ((p.ev.isSome ∨ p.ebitda.isSome) →
      (update_deal doc p now).ev_ebitda =
        some (compute_ev_ebitda (p.ev.getD (doc.ev.getD 0)) (p.ebitda.getD (doc.ebitda.getD 0)))) ∧
    (p.ev = none → p.ebitda = none → p.ev_ebitda = none →
      (update_deal doc p now).ev_ebitda = doc.ev_ebitda) ∧
    (p.ebitda_margin = none → (update_deal doc p now).ebitda_margin = doc.ebitda_margin) ∧
    (∀ v, p.ebitda_margin = some v → (update_deal doc p now).ebitda_margin = some v) ∧
    (update_deal doc p now).id = doc.id ∧
    (update_deal doc p now).created_at = doc.created_at ∧
    (p.name = none → (update_deal doc p now).name = doc.name) ∧
    (p.sector = none → (update_deal doc p now).sector = doc.sector) ∧
    (p.subsector = none → (update_deal doc p now).subsector = doc.subsector) ∧
    (p.geography = none → (update_deal doc p now).geography = doc.geography) ∧
    (p.revenue = none → (update_deal doc p now).revenue = doc.revenue) ∧
    (∀ v, p.revenue = some v → (update_deal doc p now).revenue = some v) ∧
    (p.ebitda = none → (update_deal doc p now).ebitda = doc.ebitda) ∧
    (p.growth_rate = none → (update_deal doc p now).growth_rate = doc.growth_rate) ∧
    (p.net_debt = none → (update_deal doc p now).net_debt = doc.net_debt) ∧
    (p.deal_stage = none → (update_deal doc p now).deal_stage = doc.deal_stage) ∧
    (p.source = none → (update_deal doc p now).source = doc.source) := by
  refine ⟨rfl, ?_, ?_, ?_, ?_, rfl, rfl, ?_, ?_, ?_, ?_, ?_, ?_, ?_, ?_, ?_, ?_, ?_⟩
  · intro h
    have hb : (p.ev.isSome || p.ebitda.isSome) = true := by
      rcases h with h | h <;> simp_all
    simp [update_deal, setField, evUpdate, hb]
  · intro h1 h2 h3
    simp [update_deal, setField, evUpdate, h1, h2, h3]
  all_goals first
    | (intro h; simp [update_deal, setField, h])
    | (intro v h; simp [update_deal, setField, h])

/-- Witness for C7: patching only ev on c7Doc recomputes ev_ebitda with the
stored ebitda and leaves ebitda_margin unchanged. -/
theorem C7_update_frame_witness :
    (update_deal c7Doc c7EvOnlyPatch 5).updated_at = 5 ∧
    (update_deal c7Doc c7EvOnlyPatch 5).ev_ebitda =
      some (compute_ev_ebitda (c7EvOnlyPatch.ev.getD (c7Doc.ev.getD 0))
        (c7EvOnlyPatch.ebitda.getD (c7Doc.ebitda.getD 0))) ∧
    (update_deal c7Doc c7EvOnlyPatch 5).ebitda_margin = c7Doc.ebitda_margin := by
  have H := C7_update_frame c7Doc c7EvOnlyPatch 5
  exact ⟨H.1, H.2.1 (Or.inl rfl), H.2.2.2.1 rfl⟩

/-- The length of a filterMap is the number of inputs on which the function
succeeds. -/
theorem length_filterMap_isSome {α β : Type} (g : α → Option β) (l : List α) :
    (l.filterMap g).length = l.countP (fun a => (g a).isSome) := by
  induction l with
  | nil => rfl
  | cons a l ih =>
    rw [List.filterMap_cons, List.countP_cons]
    rcases hga : g a with _ | b <;> simp [hga, ih]

/-- Claim C8: a row whose coercion fails is silently skipped: ingestion still
succeeds, the inserted count equals the number of successfully coerced rows,
and on the concrete example three good rows give inserted 3 with or without a
malformed fourth row. -/
theorem C8_row_fault_isolation :
    (∀ (header : List String) (rows : List (List (String × Cell))) (now : ℕ)
        (n : ℕ) (recs : List DealDoc),
      ingest_csv header rows now = Except.ok (n, recs) →
        n = rows.countP (fun r => (parseRow (buildColMap header) now r).isSome) ∧
        recs = rows.filterMap (parseRow (buildColMap header) now)) ∧
    insertedCount (ingest_csv c8Header c8GoodRows 0) = some 3 ∧
    insertedCount (ingest_csv c8Header (c8GoodRows ++ [c8BadRow]) 0) = some 3 := by
  refine ⟨?_, ?_, ?_⟩
  · intro header rows now n recs h
    rw [ingest_csv] at h
    cases hreq : requiredMissing (buildColMap header) with
    | some r =>
      rw [hreq] at h
      exact absurd h (by simp)
    | none =>
      rw [hreq] at h
      simp only [Except.ok.injEq, Prod.mk.injEq] at h
      obtain ⟨hn, hr⟩ := h
      constructor
      · rw [← hn, length_filterMap_isSome]
      · rw [← hr]
  · decide
  · decide

/-- Witness for C8 at the concrete header and rows: three good rows insert 3,
and appending the malformed row still inserts 3. -/
theorem C8_row_fault_isolation_witness :
    (c8GoodRows ++ [c8BadRow]).countP
        (fun r => (parseRow (buildColMap c8Header) 0 r).isSome) = 3 ∧
    insertedCount (ingest_csv c8Header (c8GoodRows ++ [c8BadRow]) 0) = some 3 := by
  refine ⟨?_, C8_row_fault_isolation.2.2⟩
  have h := (C8_row_fault_isolation.1 c8Header (c8GoodRows ++ [c8BadRow]) 0
    ((c8GoodRows ++ [c8BadRow]).filterMap (parseRow (buildColMap c8Header) 0)).length
    ((c8GoodRows ++ [c8BadRow]).filterMap (parseRow (buildColMap c8Header) 0))
    rfl).1
  rw [← h]
  decide

/-- Claim C9: ingestion fails wholesale, naming the missing column and
inserting nothing, exactly when a required logical field has no resolvable
column; the check is independent of the rows, so it precedes row processing. -/
theorem C9_required_columns :
    (∀ header : List String, requiredMissing (buildColMap header) = none ↔
      ((buildColMap header).name.isSome ∧ (buildColMap header).sector.isSome ∧
       (buildColMap header).geography.isSome ∧ (buildColMap header).revenue.isSome ∧
       (buildColMap header).ebitda.isSome)) ∧
    (∀ (header : List String) (rows : List (List (String × Cell))) (now : ℕ) (r : String),
      requiredMissing (buildColMap header) = some r →
      ingest_csv header rows now = Except.error ("Missing required column in CSV: " ++ r)) ∧
    (∀ (header : List String) (rows rows' : List (List (String × Cell))) (now now' : ℕ),
      (requiredMissing (buildColMap header)).isSome →
      ingest_csv header rows now = ingest_csv header rows' now') ∧
    (∀ (header : List String) (rows : List (List (String × Cell))) (now : ℕ),
      requiredMissing (buildColMap header) = none →
      ∃ n recs, ingest_csv header rows now = Except.ok (n, recs)) := by
  refine ⟨?_, ?_, ?_, ?_⟩
  · intro header
    rw [requiredMissing]
    split_ifs <;> simp_all [Option.isNone_iff_eq_none, Option.isSome_iff_ne_none]
  · intro header rows now r h
    simp [ingest_csv, h]
  · intro header rows rows' now now' h
    rcases Option.isSome_iff_exists.mp h with ⟨r, hr⟩
    simp [ingest_csv, hr]
  · intro header rows now h
    exact ⟨(rows.filterMap (parseRow (buildColMap header) now)).length,
      rows.filterMap (parseRow (buildColMap header) now), by simp [ingest_csv, h]⟩

/-- Witness for C9: a header without a geography column is rejected naming
geography, regardless of rows. -/
theorem C9_required_columns_witness :
    ingest_csv c9BadHeader [] 0 =
      Except.error ("Missing required column in CSV: " ++ "geography") :=
  C9_required_columns.2.1 c9BadHeader [] 0 "geography" (by decide)

/-- Claim C10: an ev_ebitda equal to exactly 0, supplied to create_deal or
stored and read through serialize_deal, is treated as absent: it is replaced
by the multiple recomputed from ev and ebitda. -/
theorem C10_zero_multiple_recomputed :
    (∀ (p : DealCreate) (id : String) (now : ℕ), p.ev_ebitda = some 0 →
      create_deal p id now = create_deal { p with ev_ebitda := none } id now ∧
      (create_deal p id now).ev_ebitda = some (compute_ev_ebitda p.ev p.ebitda)) ∧
    (∀ doc : DealDoc, doc.ev_ebitda = some 0 →
      serialize_deal doc = serialize_deal { doc with ev_ebitda := none } ∧
      (serialize_deal doc).ev_ebitda = compute_ev_ebitda (doc.ev.getD 0) (doc.ebitda.getD 0)) := by
  constructor
  · intro p id now h
    constructor <;> simp [create_deal, h]
  · intro doc h
    constructor <;> simp [serialize_deal, h]

/-- Witness for C10: a supplied zero multiple with ev 100, ebitda 10 is stored
as the recomputed 10, not 0, and a stored zero serializes as the recomputed
multiple. -/
theorem C10_zero_multiple_recomputed_witness :
    create_deal c10Create "d9" 3 = create_deal { c10Create with ev_ebitda := none } "d9" 3 ∧
    (create_deal c10Create "d9" 3).ev_ebitda = some (compute_ev_ebitda c10Create.ev c10Create.ebitda) ∧
    serialize_deal c10Doc = serialize_deal { c10Doc with ev_ebitda := none } ∧
    (serialize_deal c10Doc).ev_ebitda = compute_ev_ebitda (c10Doc.ev.getD 0) (c10Doc.ebitda.getD 0) ∧
    (create_deal c10Create "d9" 3).ev_ebitda ≠ some 0 := by
  have h1 := C10_zero_multiple_recomputed.1 c10Create "d9" 3 rfl
  have h2 := C10_zero_multiple_recomputed.2 c10Doc rfl
  refine ⟨h1.1, h1.2, h2.1, h2.2, ?_⟩
  norm_num [create_deal, c10Create, compute_ev_ebitda, round2, pyRoundInt]

end DealScreener
